import Mathlib

/-!
Shallow embedding of the transcode package (transcode.go) of Wkh3/dms.

External collaborators are abstracted exactly as the package uses them:
- duration formatting (FormatDurationSexagesimal, from the out-of-scope misc
  package) is a parameter `fmt : Int → String` applied to a `time.Duration`
  modelled as an `Int` (nanoseconds);
- the CPU count (runtime.NumCPU) is a parameter `numCPU : Nat`;
- the probe result (ffprobe.Run) is a parameter `streams`, the stream list of a
  successful probe;
- process spawning (os/exec) is modelled by a `SpawnEnv` saying which of the
  two fallible steps (StdoutPipe, Start) fails, and a `LaunchOutcome` recording
  what transcodePipe returns and whether the reaper goroutine was spawned.

Go panics (the float64 type assertion in streamArgs, the args[0] index in
transcodePipe) are modelled with `Except GoPanic`.
-/

namespace DMS.Transcode

/-- A dynamic Go value (interface\x7b\x7d), as found in an ffprobe stream map.
ffprobe delivers JSON, so numbers arrive as float64; stream indices are
integral, so the float64 payload is modelled by the integer it holds. -/
inductive GoVal where
  | null
  | str (s : String)
  | float (n : Int)
  deriving DecidableEq, Repr

/-- A probed stream: the `map[string]interface\x7b\x7d` handed to streamArgs,
as an association list. -/
abbrev StreamDescriptor := List (String × GoVal)

/-- Go map lookup: a missing key yields the zero value (nil interface). -/
def mapGet (s : StreamDescriptor) (k : String) : GoVal :=
  match s.find? (fun p => p.1 == k) with
  | some p => p.2
  | none => .null

/-- The run-time errors the package can hit: the `.(float64)` type assertion
in streamArgs, and the `args[0]` access in transcodePipe. -/
inductive GoPanic where
  | typeAssertionFailed
  | indexOutOfRange
  deriving DecidableEq, Repr

/-- The switch body of streamArgs: the per-codec flag choice before the
deferred -map append runs (a Go switch on an interface value is equality
dispatch in case order). -/
def streamArgsBody (s : StreamDescriptor) : List String :=
  if mapGet s "codec_type" = .str "video" then
    ["-target", "pal-dvd"]
  else if mapGet s "codec_type" = .str "audio" then
    if mapGet s "codec_name" = .str "dca" then
      ["-acodec", "ac3", "-ab", "224k", "-ac", "2"]
    else
      ["-acodec", "copy"]
  else if mapGet s "codec_type" = .str "subtitle" then
    ["-scodec", "copy"]
  else
    []

/-- streamArgs: the switch result plus the deferred append, which fires only
when the result is non-empty and then asserts s["index"].(float64). -/
def streamArgs (s : StreamDescriptor) : Except GoPanic (List String) :=
  if streamArgsBody s = [] then .ok []
  else
    match mapGet s "index" with
    | .float n => .ok (streamArgsBody s ++ ["-map", "0:" ++ toString n])
    | _ => .error .typeAssertionFailed

/-- The diagnostic sink handed to transcodePipe (cmd.Stderr); only its
identity matters to the model. -/
abbrev Sink := Nat

/-- Which fallible os/exec step fails for this launch. -/
structure SpawnEnv where
  stdoutPipeFails : Bool
  startFails : Bool
  deriving DecidableEq, Repr

/-- The error transcodePipe returns: from cmd.StdoutPipe or cmd.Start. -/
inductive LaunchErr where
  | pipeErr
  | startErr
  deriving DecidableEq, Repr

/-- What a call to transcodePipe returns and does: the ReadCloser `r`
(none = nil), the error, whether the reaper goroutine was spawned, and the
sink bound to cmd.Stderr. -/
structure LaunchOutcome where
  stream : Option Unit
  err : Option LaunchErr
  reaperSpawned : Bool
  stderrBound : Sink
  deriving DecidableEq, Repr

/-- transcodePipe: exec.Command(args[0], args[1:]...) panics on an empty
argv; then cmd.Stderr is bound; StdoutPipe failure returns (nil, err) before
Start; Start failure returns the already-created pipe alongside err; only a
successful Start spawns the reaper goroutine. -/
def transcodePipe (env : SpawnEnv) (args : List String) (stderr : Sink) :
    Except GoPanic LaunchOutcome :=
  match args with
  | [] => .error .indexOutOfRange
  | _ :: _ =>
    if env.stdoutPipeFails then
      .ok { stream := none, err := some .pipeErr, reaperSpawned := false,
            stderrBound := stderr }
    else if env.startFails then
      .ok { stream := some (), err := some .startErr, reaperSpawned := false,
            stderrBound := stderr }
    else
      .ok { stream := some (), err := none, reaperSpawned := true,
            stderrBound := stderr }

/-- The per-stream directives Transcode accumulates over the probed streams,
in order; a panic in any streamArgs call aborts the whole build. -/
def appendStreamArgs : List StreamDescriptor → Except GoPanic (List String)
  | [] => .ok []
  | s :: rest =>
    match streamArgs s with
    | .error p => .error p
    | .ok a =>
      match appendStreamArgs rest with
      | .error p => .error p
      | .ok r => .ok (a ++ r)

/-- The argument vector built by Transcode (profile A, MPEG-PS/DLNA), given
the probe result `streams` of a successful ffprobe run. -/
def TranscodeArgs (numCPU : Nat) (fmt : Int → String) (path : String)
    (start length : Int) (streams : List StreamDescriptor) :
    Except GoPanic (List String) :=
  let args := ["ffmpeg", "-threads", toString numCPU, "-async", "1",
               "-ss", fmt start]
  let args := if 0 ≤ length then args ++ ["-t", fmt length] else args
  let args := args ++ ["-i", path]
  match appendStreamArgs streams with
  | .error p => .error p
  | .ok dirs => .ok (args ++ dirs ++ ["-f", "mpegts", "pipe:"])

/-- The argument vector built by VP8Transcode (profile B, webm/avconv). -/
def VP8TranscodeArgs (numCPU : Nat) (fmt : Int → String) (path : String)
    (start length : Int) : List String :=
  let args := ["avconv", "-threads", toString numCPU, "-async", "1",
               "-ss", fmt start]
  let args := if 0 < length then args ++ ["-t", fmt length] else args
  args ++ ["-i", path, "-f", "webm", "pipe:"]

/-- The argument vector built by ChromecastTranscode (profile C,
fragmented mp4). -/
def ChromecastTranscodeArgs (fmt : Int → String) (path : String)
    (start length : Int) : List String :=
  let args := ["ffmpeg", "-ss", fmt start, "-i", path,
               "-c:v", "libx264", "-preset", "ultrafast",
               "-profile:v", "high", "-level", "5.0",
               "-movflags", "+faststart+frag_keyframe+empty_moov"]
  let args := if 0 < length then args ++ ["-t", fmt length] else args
  args ++ ["-f", "mp4", "pipe:"]

/-- The argument vector built by WebTranscode (profile D, fragmented mp4
with mp3 audio). -/
def WebTranscodeArgs (fmt : Int → String) (path : String)
    (start length : Int) : List String :=
  let args := ["ffmpeg", "-ss", fmt start, "-i", path,
               "-pix_fmt", "yuv420p",
               "-c:v", "libx264", "-crf", "25",
               "-c:a", "mp3", "-ab", "128k", "-ar", "44100",
               "-preset", "ultrafast",
               "-movflags", "+faststart+frag_keyframe+empty_moov"]
  let args := if 0 < length then args ++ ["-t", fmt length] else args
  args ++ ["-f", "mp4", "pipe:"]

/-- The double quote character. -/
def dquoteChar : Char := Char.ofNat 34

/-- The single quote character. -/
def squoteChar : Char := Char.ofNat 39

/-- The backslash character. -/
def backslashChar : Char := Char.ofNat 92

/-- The tokenizer states of parseCommandLine. -/
inductive TokState where
  | start
  | arg
  | quotes
  deriving DecidableEq, Repr

/-- The loop variables of parseCommandLine. -/
structure PState where
  args : List String
  state : TokState
  current : String
  quote : Char
  escapeNext : Bool
  deriving DecidableEq, Repr

/-- The loop variables before the first iteration: note escapeNext starts
true. -/
def plInit : PState :=
  { args := [], state := .start, current := "", quote := dquoteChar,
    escapeNext := true }

/-- One iteration of the parseCommandLine loop on character c, translated
branch for branch from the Go body. -/
def plStep (st : PState) (c : Char) : PState :=
  if st.state = .quotes then
    if c ≠ st.quote then
      { st with current := st.current.push c }
    else
      { st with args := st.args ++ [st.current], current := "",
                state := .start }
  else if st.escapeNext then
    { st with current := st.current.push c, escapeNext := false }
  else if c = backslashChar then
    { st with escapeNext := true }
  else if c = dquoteChar ∨ c = squoteChar then
    { st with state := .quotes, quote := c }
  else if st.state = .arg then
    if c = ' ' ∨ c = '\t' then
      { st with args := st.args ++ [st.current], current := "",
                state := .start }
    else
      { st with current := st.current.push c }
  else
    if c ≠ ' ' ∧ c ≠ '\t' then
      { st with state := .arg, current := st.current.push c }
    else
      st

/-- The code after the loop: unclosed quote is an error, a pending
non-empty token is emitted. -/
def plFinish (command : String) (st : PState) : Except String (List String) :=
  if st.state = .quotes then
    .error ("Unclosed quote in command line: " ++ command)
  else if st.current ≠ "" then
    .ok (st.args ++ [st.current])
  else
    .ok st.args

/-- parseCommandLine: fold the loop body over the characters of the command
(the Go code iterates bytes; over the ASCII commands of interest the two
agree). -/
def parseCommandLine (command : String) : Except String (List String) :=
  plFinish command (command.data.foldl plStep plInit)

/-- The observable result of Exec: a tokenizer error, a panic from the
launcher, or a launch outcome. -/
inductive ExecOutcome where
  | tokErr (msg : String)
  | panic (p : GoPanic)
  | launched (o : LaunchOutcome)
  deriving DecidableEq, Repr

/-- Lift a transcodePipe result into an Exec result. -/
def liftPipe : Except GoPanic LaunchOutcome → ExecOutcome
  | .error p => .panic p
  | .ok o => .launched o

/-- Exec: tokenize the command string and hand the tokens to transcodePipe;
start and length are accepted and never read. -/
def Exec (env : SpawnEnv) (cmds : String) (start length : Int)
    (stderr : Sink) : ExecOutcome :=
  match parseCommandLine cmds with
  | .error e => .tokErr e
  | .ok argv => liftPipe (transcodePipe env argv stderr)

end DMS.Transcode

deriving instance DecidableEq for Except

namespace DMS.Transcode

/-- A stream-selection token "0:index" is never the literal "-t". -/
theorem mapToken_ne_t (x : String) : "0:" ++ x ≠ "-t" := by
  intro h
  have h2 : ("0:" ++ x).data = "-t".data := by rw [h]
  rw [String.data_append] at h2
  simp at h2

/-- The switch body of streamArgs never emits the token "-t". -/
theorem streamArgsBody_not_t (s : StreamDescriptor) :
    "-t" ∉ streamArgsBody s := by
  unfold streamArgsBody
  split_ifs <;> simp

/-- A directive returned by streamArgs never holds the token "-t". -/
theorem streamArgs_ok_not_t (s : StreamDescriptor) (r : List String)
    (h : streamArgs s = .ok r) : "-t" ∉ r := by
  unfold streamArgs at h
  by_cases hb : streamArgsBody s = []
  · rw [if_pos hb] at h
    injection h with h
    subst h
    simp
  · rw [if_neg hb] at h
    cases hi : mapGet s "index" with
    | null => rw [hi] at h; exact absurd h (by simp)
    | str t => rw [hi] at h; exact absurd h (by simp)
    | float n =>
      rw [hi] at h
      simp only [Except.ok.injEq] at h
      subst h
      simp only [List.mem_append, List.mem_cons, List.mem_singleton]
      push_neg
      exact ⟨streamArgsBody_not_t s, by simp, (mapToken_ne_t _).symm, by simp⟩

/-- The concatenated per-stream directives never hold the token "-t". -/
theorem appendStreamArgs_not_t (ss : List StreamDescriptor) (ds : List String)
    (h : appendStreamArgs ss = .ok ds) : "-t" ∉ ds := by
  induction ss generalizing ds with
  | nil =>
    unfold appendStreamArgs at h
    injection h with h
    subst h
    simp
  | cons s rest ih =>
    unfold appendStreamArgs at h
    cases ha : streamArgs s with
    | error p => rw [ha] at h; exact absurd h (by simp)
    | ok a =>
      rw [ha] at h
      cases hr : appendStreamArgs rest with
      | error p => rw [hr] at h; exact absurd h (by simp)
      | ok r =>
        rw [hr] at h
        injection h with h
        subst h
        simp only [List.mem_append]
        push_neg
        exact ⟨streamArgs_ok_not_t s a ha, ih r hr⟩

/-- C3: on every non-empty command the tokenizer's first iteration runs with
the escape flag pending, so the first character is copied into the current
token as a literal, no quoted section is opened (the state is still `start`
and the quote character is untouched), no token is emitted, and the escape is
consumed — whatever the character is. -/
theorem spec_c3_first_char_escaped (c : Char) (cs : List Char) :
    parseCommandLine (String.mk (c :: cs)) =
      plFinish (String.mk (c :: cs))
        (cs.foldl plStep
          { args := [], state := .start, current := String.mk [c],
            quote := dquoteChar, escapeNext := false }) := rfl

/-- C4 counterexample: tokenizing `foo "bar baz" qux` does NOT yield
["oo", "bar baz", "qux"]; the leading f is not swallowed. -/
theorem spec_c4_counterexample :
    parseCommandLine "foo \x22bar baz\x22 qux" ≠
      .ok ["oo", "bar baz", "qux"] := by decide

/-- C4 amended: tokenizing `foo "bar baz" qux` yields
["foo", "bar baz", "qux"]: the initial forced escape copies the f into the
first token as a literal rather than dropping it. -/
theorem spec_c4_amended :
    parseCommandLine "foo \x22bar baz\x22 qux" =
      .ok ["foo", "bar baz", "qux"] := rfl

/-- C5 counterexample: when the pipe is created but the process fails to
start (a non-existent binary), transcodePipe returns the error together with
the already-created stdout pipe handle — not with a nil stream — and spawns
no reaper. -/
theorem spec_c5_counterexample :
    (transcodePipe { stdoutPipeFails := false, startFails := true }
        ["/no/such/binary"] 0).map LaunchOutcome.stream = .ok (some ()) ∧
    (transcodePipe { stdoutPipeFails := false, startFails := true }
        ["/no/such/binary"] 0).map LaunchOutcome.err = .ok (some .startErr) ∧
    (transcodePipe { stdoutPipeFails := false, startFails := true }
        ["/no/such/binary"] 0).map LaunchOutcome.reaperSpawned = .ok false :=
  ⟨rfl, rfl, rfl⟩

/-- C5 amended: on either failure transcodePipe returns an error and spawns
no reaper; on pipe-creation failure the returned stream is nil, but on
process-start failure the already-created stdout pipe is returned alongside
the error. -/
theorem spec_c5_amended (env : SpawnEnv) (args : List String) (stderr : Sink)
    (h : args ≠ []) :
    (env.stdoutPipeFails = true →
      transcodePipe env args stderr =
        .ok { stream := none, err := some .pipeErr, reaperSpawned := false,
              stderrBound := stderr }) ∧
    (env.stdoutPipeFails = false → env.startFails = true →
      transcodePipe env args stderr =
        .ok { stream := some (), err := some .startErr,
              reaperSpawned := false, stderrBound := stderr }) := by
  cases args with
  | nil => exact absurd rfl h
  | cons a rest =>
    constructor
    · intro hp
      simp [transcodePipe, hp]
    · intro hp hs
      simp [transcodePipe, hp, hs]

/-- C5 witness: the amended statement at a pipe-failing and at a
start-failing launch of a one-element argv. -/
theorem spec_c5_amended_witness :
    transcodePipe { stdoutPipeFails := true, startFails := false }
        ["ffmpeg"] 0 =
      .ok { stream := none, err := some .pipeErr, reaperSpawned := false,
            stderrBound := 0 } ∧
    transcodePipe { stdoutPipeFails := false, startFails := true }
        ["ffmpeg"] 0 =
      .ok { stream := some (), err := some .startErr, reaperSpawned := false,
            stderrBound := 0 } :=
  ⟨(spec_c5_amended { stdoutPipeFails := true, startFails := false }
      ["ffmpeg"] 0 (by decide)).1 rfl,
   (spec_c5_amended { stdoutPipeFails := false, startFails := true }
      ["ffmpeg"] 0 (by decide)).2 rfl rfl⟩

/-- C6 counterexample: a descriptor with codec_type "video" and no "index"
key makes the deferred -map append's float64 type assertion fail, so
streamArgs is not total over arbitrary maps. -/
theorem spec_c6_counterexample :
    streamArgs [("codec_type", GoVal.str "video")] =
      .error .typeAssertionFailed := rfl

/-- C6 amended: streamArgs is deterministic, and it is total on every
descriptor whose "index" key holds a float64, as well as on every descriptor
whose codec_type selects the empty directive (the deferred append, and with
it the type assertion, only runs for a non-empty directive); the assertion
panics exactly when a recognized codec_type meets a missing or non-float
"index". -/
theorem spec_c6_amended :
    (∀ (s : StreamDescriptor) (n : Int), mapGet s "index" = .float n →
      ∃ r, streamArgs s = .ok r) ∧
    (∀ s : StreamDescriptor,
      mapGet s "codec_type" ≠ .str "video" →
      mapGet s "codec_type" ≠ .str "audio" →
      mapGet s "codec_type" ≠ .str "subtitle" →
      streamArgs s = .ok []) ∧
    (∀ s t : StreamDescriptor, s = t → streamArgs s = streamArgs t) := by
  refine ⟨?_, ?_, ?_⟩
  · intro s n hn
    unfold streamArgs
    by_cases hb : streamArgsBody s = []
    · exact ⟨[], by rw [if_pos hb]⟩
    · exact ⟨streamArgsBody s ++ ["-map", "0:" ++ toString n],
        by rw [if_neg hb, hn]⟩
  · intro s h1 h2 h3
    have hb : streamArgsBody s = [] := by
      unfold streamArgsBody
      rw [if_neg h1, if_neg h2, if_neg h3]
    unfold streamArgs
    rw [if_pos hb]
  · intro s t h
    rw [h]

/-- C6 witness: the amended statement at concrete descriptors — a dca audio
stream with index 1 is total, an attachment stream yields the empty
directive, and equal inputs yield equal outputs. -/
theorem spec_c6_amended_witness :
    (∃ r, streamArgs [("index", GoVal.float 1),
        ("codec_type", GoVal.str "audio"),
        ("codec_name", GoVal.str "dca")] = .ok r) ∧
    streamArgs [("codec_type", GoVal.str "attachment")] = .ok [] ∧
    streamArgs [("codec_type", GoVal.str "video")] =
      streamArgs [("codec_type", GoVal.str "video")] :=
  ⟨spec_c6_amended.1 [("index", GoVal.float 1),
      ("codec_type", GoVal.str "audio"),
      ("codec_name", GoVal.str "dca")] 1 rfl,
   spec_c6_amended.2.1 [("codec_type", GoVal.str "attachment")]
     (by decide) (by decide) (by decide),
   spec_c6_amended.2.2 _ _ rfl⟩

/-- C9: Exec never reads its start and length parameters: any two time
windows give the same outcome, and the argument vector handed to the
launcher is exactly the tokenizer's output, with no -ss or -t added. -/
theorem spec_c9_exec_ignores_window (env : SpawnEnv) (cmds : String)
    (sink : Sink) (s1 l1 s2 l2 : Int) :
    Exec env cmds s1 l1 sink = Exec env cmds s2 l2 sink ∧
    (∀ argv, parseCommandLine cmds = .ok argv →
      Exec env cmds s1 l1 sink = liftPipe (transcodePipe env argv sink)) := by
  constructor
  · rfl
  · intro argv h
    simp [Exec, h]

/-- C9 witness: Exec at the command "ffmpeg" with window (1, 2) launches
exactly the tokenizer's argv ["ffmpeg"]. -/
theorem spec_c9_exec_ignores_window_witness :
    Exec { stdoutPipeFails := false, startFails := false } "ffmpeg" 1 2 0 =
      liftPipe (transcodePipe
        { stdoutPipeFails := false, startFails := false } ["ffmpeg"] 0) :=
  (spec_c9_exec_ignores_window
    { stdoutPipeFails := false, startFails := false } "ffmpeg" 0 1 2 3 4).2
    ["ffmpeg"] rfl

/-- C1: the codec policy table of streamArgs, on descriptors carrying a
float64 "index" as ffprobe delivers them: video streams get the fixed
pal-dvd target, dca audio is transcoded to 2-channel 224k AC-3, other audio
and subtitles are copied, and each of these directives ends in the trailing
"-map" "0:index" pair; any other codec_type yields the empty directive, with
no -map pair appended. -/
theorem spec_c1_policy (s : StreamDescriptor) :
    (∀ n : Int, mapGet s "index" = .float n →
      (mapGet s "codec_type" = .str "video" →
        streamArgs s =
          .ok ["-target", "pal-dvd", "-map", "0:" ++ toString n]) ∧
      (mapGet s "codec_type" = .str "audio" →
        mapGet s "codec_name" = .str "dca" →
        streamArgs s = .ok ["-acodec", "ac3", "-ab", "224k", "-ac", "2",
          "-map", "0:" ++ toString n]) ∧
      (mapGet s "codec_type" = .str "audio" →
        mapGet s "codec_name" ≠ .str "dca" →
        streamArgs s = .ok ["-acodec", "copy", "-map", "0:" ++ toString n]) ∧
      (mapGet s "codec_type" = .str "subtitle" →
        streamArgs s = .ok ["-scodec", "copy", "-map", "0:" ++ toString n])) ∧
    (mapGet s "codec_type" ≠ .str "video" →
      mapGet s "codec_type" ≠ .str "audio" →
      mapGet s "codec_type" ≠ .str "subtitle" →
      streamArgs s = .ok []) := by
  constructor
  · intro n hn
    refine ⟨?_, ?_, ?_, ?_⟩
    · intro hct
      have hb : streamArgsBody s = ["-target", "pal-dvd"] := by
        simp [streamArgsBody, hct]
      simp [streamArgs, hb, hn]
    · intro hct hcn
      have hb : streamArgsBody s =
          ["-acodec", "ac3", "-ab", "224k", "-ac", "2"] := by
        simp [streamArgsBody, hct, hcn]
      simp [streamArgs, hb, hn]
    · intro hct hcn
      have hb : streamArgsBody s = ["-acodec", "copy"] := by
        simp [streamArgsBody, hct, hcn]
      simp [streamArgs, hb, hn]
    · intro hct
      have hb : streamArgsBody s = ["-scodec", "copy"] := by
        simp [streamArgsBody, hct]
      simp [streamArgs, hb, hn]
  · intro h1 h2 h3
    have hb : streamArgsBody s = [] := by
      unfold streamArgsBody
      rw [if_neg h1, if_neg h2, if_neg h3]
    simp [streamArgs, hb]

/-- C1 witness: the policy at an mp3 audio stream with index 2 (copy plus
-map 0:2) and at a data stream (empty directive). -/
theorem spec_c1_policy_witness :
    streamArgs [("index", GoVal.float 2), ("codec_type", GoVal.str "audio"),
        ("codec_name", GoVal.str "mp3")] =
      .ok ["-acodec", "copy", "-map", "0:" ++ toString (2 : Int)] ∧
    streamArgs [("codec_type", GoVal.str "data")] = .ok [] :=
  ⟨((spec_c1_policy [("index", GoVal.float 2),
      ("codec_type", GoVal.str "audio"),
      ("codec_name", GoVal.str "mp3")]).1 2 rfl).2.2.1 rfl (by decide),
   (spec_c1_policy [("codec_type", GoVal.str "data")]).2
     (by decide) (by decide) (by decide)⟩

/-- C2: over argument vectors whose variable strings (formatted timestamps,
the source path, the CPU count) are not the literal "-t", profile A includes
the -t flag exactly when length is non-negative while profiles B, C and D
include it exactly when length is positive; at length zero, profile A emits
-t followed by the formatted zero duration and the others omit -t. -/
theorem spec_c2_length_flag (numCPU : Nat) (fmt : Int → String)
    (path : String) (start length : Int) (streams : List StreamDescriptor)
    (args : List String)
    (hfmt : ∀ d, fmt d ≠ "-t") (hpath : path ≠ "-t")
    (hcpu : toString numCPU ≠ "-t")
    (hA : TranscodeArgs numCPU fmt path start length streams = .ok args) :
    ("-t" ∈ args ↔ 0 ≤ length) ∧
    ("-t" ∈ VP8TranscodeArgs numCPU fmt path start length ↔ 0 < length) ∧
    ("-t" ∈ ChromecastTranscodeArgs fmt path start length ↔ 0 < length) ∧
    ("-t" ∈ WebTranscodeArgs fmt path start length ↔ 0 < length) ∧
    (length = 0 → ["-t", fmt 0] <:+: args) := by
  have hf1 : "-t" ≠ fmt start := (hfmt start).symm
  have hf2 : "-t" ≠ fmt length := (hfmt length).symm
  have hp : "-t" ≠ path := hpath.symm
  have hc : "-t" ≠ toString numCPU := hcpu.symm
  cases hd : appendStreamArgs streams with
  | error p => simp [TranscodeArgs, hd] at hA
  | ok dirs =>
    have hnd : "-t" ∉ dirs := appendStreamArgs_not_t streams dirs hd
    simp only [TranscodeArgs, hd, Except.ok.injEq] at hA
    subst hA
    refine ⟨?_, ?_, ?_, ?_, ?_⟩
    · by_cases hl : 0 ≤ length
      · simp [hl]
      · simp [hl, hf1, hf2, hp, hc, hnd]
    · by_cases hl : 0 < length
      · simp [VP8TranscodeArgs, hl]
      · simp [VP8TranscodeArgs, hl, hf1, hf2, hp, hc]
    · by_cases hl : 0 < length
      · simp [ChromecastTranscodeArgs, hl]
      · simp [ChromecastTranscodeArgs, hl, hf1, hf2, hp]
    · by_cases hl : 0 < length
      · simp [WebTranscodeArgs, hl]
      · simp [WebTranscodeArgs, hl, hf1, hf2, hp]
    · intro h0
      subst h0
      rw [if_pos (le_refl (0 : Int))]
      exact ⟨["ffmpeg", "-threads", toString numCPU, "-async", "1",
              "-ss", fmt start],
             ["-i", path] ++ dirs ++ ["-f", "mpegts", "pipe:"],
             by simp⟩

/-- C2 witness: the length-inclusion rule at length 0 with a concrete
formatter, path and CPU count, and an empty probed stream list. -/
theorem spec_c2_length_flag_witness :
    ("-t" ∈ ["ffmpeg", "-threads", "2", "-async", "1", "-ss", "0:00:07",
        "-t", "0:00:07", "-i", "a.mkv", "-f", "mpegts", "pipe:"] ↔
      (0 : Int) ≤ 0) ∧
    ("-t" ∈ VP8TranscodeArgs 2 (fun _ => "0:00:07") "a.mkv" 0 0 ↔
      (0 : Int) < 0) ∧
    ("-t" ∈ ChromecastTranscodeArgs (fun _ => "0:00:07") "a.mkv" 0 0 ↔
      (0 : Int) < 0) ∧
    ("-t" ∈ WebTranscodeArgs (fun _ => "0:00:07") "a.mkv" 0 0 ↔
      (0 : Int) < 0) ∧
    ((0 : Int) = 0 → ["-t", (fun _ : Int => "0:00:07") 0] <:+:
      ["ffmpeg", "-threads", "2", "-async", "1", "-ss", "0:00:07",
       "-t", "0:00:07", "-i", "a.mkv", "-f", "mpegts", "pipe:"]) :=
  spec_c2_length_flag 2 (fun _ => "0:00:07") "a.mkv" 0 0 []
    ["ffmpeg", "-threads", "2", "-async", "1", "-ss", "0:00:07",
     "-t", "0:00:07", "-i", "a.mkv", "-f", "mpegts", "pipe:"]
    (fun d => show "0:00:07" ≠ "-t" by decide) (by decide) (by decide) rfl

/-- C7 counterexample: in profile C (ChromecastTranscode) with a positive
length the -t flag is present but comes after -i, not before it. -/
theorem spec_c7_counterexample :
    "-t" ∈ ChromecastTranscodeArgs (fun _ => "0:00:05") "video.mkv" 5 5 ∧
    "-i" ∈ ChromecastTranscodeArgs (fun _ => "0:00:05") "video.mkv" 5 5 ∧
    (ChromecastTranscodeArgs (fun _ => "0:00:05") "video.mkv" 5 5).indexOf
        "-i" <
      (ChromecastTranscodeArgs (fun _ => "0:00:05") "video.mkv" 5 5).indexOf
        "-t" := by decide

/-- C7 amended: with the -t flag included, profiles A and B follow the shape
[binary, global flags, -ss start, -t length, -i path, directives, output
flags, pipe target], while profiles C and D place -i directly after -ss and
append -t after their encode flags, just before the output-format flags. -/
theorem spec_c7_amended (numCPU : Nat) (fmt : Int → String) (path : String)
    (start length : Int) (streams : List StreamDescriptor)
    (dirs : List String)
    (hd : appendStreamArgs streams = .ok dirs) (hl : 0 < length) :
    TranscodeArgs numCPU fmt path start length streams =
      .ok (["ffmpeg", "-threads", toString numCPU, "-async", "1",
            "-ss", fmt start, "-t", fmt length, "-i", path] ++
           dirs ++ ["-f", "mpegts", "pipe:"]) ∧
    VP8TranscodeArgs numCPU fmt path start length =
      ["avconv", "-threads", toString numCPU, "-async", "1",
       "-ss", fmt start, "-t", fmt length, "-i", path,
       "-f", "webm", "pipe:"] ∧
    ChromecastTranscodeArgs fmt path start length =
      ["ffmpeg", "-ss", fmt start, "-i", path,
       "-c:v", "libx264", "-preset", "ultrafast", "-profile:v", "high",
       "-level", "5.0", "-movflags", "+faststart+frag_keyframe+empty_moov",
       "-t", fmt length, "-f", "mp4", "pipe:"] ∧
    WebTranscodeArgs fmt path start length =
      ["ffmpeg", "-ss", fmt start, "-i", path, "-pix_fmt", "yuv420p",
       "-c:v", "libx264", "-crf", "25", "-c:a", "mp3", "-ab", "128k",
       "-ar", "44100", "-preset", "ultrafast",
       "-movflags", "+faststart+frag_keyframe+empty_moov",
       "-t", fmt length, "-f", "mp4", "pipe:"] := by
  have hle : (0 : Int) ≤ length := le_of_lt hl
  refine ⟨?_, ?_, ?_, ?_⟩
  · simp [TranscodeArgs, hd, hle]
  · simp [VP8TranscodeArgs, hl]
  · simp [ChromecastTranscodeArgs, hl]
  · simp [WebTranscodeArgs, hl]

/-- C7 witness: the four shapes at a concrete formatter, path and positive
length, with no probed streams. -/
theorem spec_c7_amended_witness :
    TranscodeArgs 1 (fun _ => "0:00:03") "m.avi" 3 3 [] =
      .ok ["ffmpeg", "-threads", "1", "-async", "1", "-ss", "0:00:03",
           "-t", "0:00:03", "-i", "m.avi", "-f", "mpegts", "pipe:"] ∧
    VP8TranscodeArgs 1 (fun _ => "0:00:03") "m.avi" 3 3 =
      ["avconv", "-threads", "1", "-async", "1", "-ss", "0:00:03",
       "-t", "0:00:03", "-i", "m.avi", "-f", "webm", "pipe:"] ∧
    ChromecastTranscodeArgs (fun _ => "0:00:03") "m.avi" 3 3 =
      ["ffmpeg", "-ss", "0:00:03", "-i", "m.avi",
       "-c:v", "libx264", "-preset", "ultrafast", "-profile:v", "high",
       "-level", "5.0", "-movflags", "+faststart+frag_keyframe+empty_moov",
       "-t", "0:00:03", "-f", "mp4", "pipe:"] ∧
    WebTranscodeArgs (fun _ => "0:00:03") "m.avi" 3 3 =
      ["ffmpeg", "-ss", "0:00:03", "-i", "m.avi", "-pix_fmt", "yuv420p",
       "-c:v", "libx264", "-crf", "25", "-c:a", "mp3", "-ab", "128k",
       "-ar", "44100", "-preset", "ultrafast",
       "-movflags", "+faststart+frag_keyframe+empty_moov",
       "-t", "0:00:03", "-f", "mp4", "pipe:"] :=
  spec_c7_amended 1 (fun _ => "0:00:03") "m.avi" 3 3 [] [] rfl (by decide)

/-- C8 counterexample: the command `ab"cd` carries a quote mid-token (the
tokenizer is in the arg state on "ab" when the quote arrives, after the
initial escape consumed the a), yet the tokenizer fails with an
unclosed-quote error instead of treating the quote as an ordinary
character. -/
theorem spec_c8_counterexample :
    parseCommandLine "ab\x22cd" =
      .error ("Unclosed quote in command line: ab\x22cd") := rfl

/-- C8 amended: end-of-input never fails outside the quotes state (so
unmatched backslashes never fail), a backslash outside quotes merely arms
the escape flag, and an unescaped quote character opens a quoted section in
ANY non-quotes state — including mid-token in the arg state, where the
current token is kept and continues accumulating inside the quotes. -/
theorem spec_c8_amended :
    (∀ (cmd : String) (st : PState), st.state ≠ TokState.quotes →
      ∃ args, plFinish cmd st = .ok args) ∧
    (∀ st : PState, st.state ≠ TokState.quotes → st.escapeNext = false →
      plStep st backslashChar = { st with escapeNext := true }) ∧
    (∀ (st : PState) (c : Char), st.state = TokState.arg →
      st.escapeNext = false → (c = dquoteChar ∨ c = squoteChar) →
      plStep st c = { st with state := .quotes, quote := c }) := by
  refine ⟨?_, ?_, ?_⟩
  · intro cmd st h
    unfold plFinish
    rw [if_neg h]
    by_cases hc : st.current ≠ ""
    · exact ⟨st.args ++ [st.current], by rw [if_pos hc]⟩
    · exact ⟨st.args, by rw [if_neg hc]⟩
  · intro st h he
    simp [plStep, h, he]
  · intro st c hst hesc hc
    have h1 : dquoteChar ≠ backslashChar := by decide
    have h2 : squoteChar ≠ backslashChar := by decide
    rcases hc with rfl | rfl
    · simp [plStep, hst, hesc, h1]
    · simp [plStep, hst, hesc, h2]

/-- C8 witness: the amended statement at a pending token "ab" in the arg
state — finishing succeeds, a backslash arms the escape, and a double quote
transitions to the quotes state keeping the token. -/
theorem spec_c8_amended_witness :
    (∃ args, plFinish "x"
        { args := ["a"], state := .start, current := "",
                 quote := dquoteChar, escapeNext := true } = .ok args) ∧
    plStep { args := [], state := .arg, current := "ab",
             quote := dquoteChar, escapeNext := false } backslashChar =
      { args := [], state := .arg, current := "ab",
        quote := dquoteChar, escapeNext := true } ∧
    plStep { args := [], state := .arg, current := "ab",
             quote := dquoteChar, escapeNext := false } dquoteChar =
      { args := [], state := .quotes, current := "ab",
        quote := dquoteChar, escapeNext := false } :=
  ⟨spec_c8_amended.1 "x" { args := ["a"], state := .start, current := "",
                           quote := dquoteChar, escapeNext := true }
     (by decide),
   spec_c8_amended.2.1 { args := [], state := .arg, current := "ab",
                         quote := dquoteChar, escapeNext := false }
     (by decide) rfl,
   spec_c8_amended.2.2 { args := [], state := .arg, current := "ab",
                         quote := dquoteChar, escapeNext := false }
     dquoteChar rfl rfl (Or.inl rfl)⟩

/-- C10: tokenizing the empty command succeeds with an empty token list,
transcodePipe on an empty argv hits the args[0] out-of-bounds access, and so
Exec "" panics with index-out-of-range for every environment, window and
sink. -/
theorem spec_c10_empty_command (env : SpawnEnv) (start length : Int)
    (sink : Sink) :
    parseCommandLine "" = .ok [] ∧
    transcodePipe env [] sink = .error .indexOutOfRange ∧
    Exec env "" start length sink = .panic .indexOutOfRange :=
  ⟨rfl, rfl, rfl⟩

end DMS.Transcode
